import Mathlib

/-!
Shallow embedding of the authentication and authorization core of the
user-management-system frontend:
  - `src/frontend/src/store/auth.ts`  (zustand auth store: state, actions,
    permission checks)
  - `src/frontend/src/lib/api.ts`     (APIClient: token storage, single-flight
    refresh, response interceptor, login)
  - `src/frontend/src/components/auth/ProtectedRoute.tsx` (PermissionGate)
  - `Providers`/`AuthInitializer` (session bootstrap)
  - `LoginForm.onSubmit` (second-factor branch)
TypeScript objects become structures, `string | null` becomes `Option String`,
lists stay lists, and the stateful store/client code becomes explicit state
passing. Backend responses are inputs to the modelled functions.
-/

/-- `Permission` from `src/frontend/src/lib/api.ts` (fields used by the
permission checks). -/
structure Permission where
  name : String
  resource : String
  action : String
deriving Repr, DecidableEq

/-- `Role` from `src/frontend/src/lib/api.ts` (fields used by the permission
checks). -/
structure Role where
  name : String
  permissions : List Permission
deriving Repr, DecidableEq

/-- `User` from `src/frontend/src/lib/api.ts` (fields used by the auth store).
In the TypeScript type, `roles` is `Role[]` (always an array), so the
`!user.roles` guard in the store only fires on a null user. -/
structure User where
  id : String
  email : String
  is_superuser : Bool
  is_2fa_enabled : Bool
  roles : List Role
deriving Repr, DecidableEq

/-- The mutable slice of the zustand store in `src/frontend/src/store/auth.ts`:
`user`, `isAuthenticated`, `isLoading`. -/
structure AuthState where
  user : Option User
  isAuthenticated : Bool
  isLoading : Bool
deriving Repr, DecidableEq

/-- Initial store state in `auth.ts`: `user: null, isAuthenticated: false,
isLoading: false`. -/
def initialAuthState : AuthState :=
  { user := none, isAuthenticated := false, isLoading := false }

/-- `setUser` action: `set({ user, isAuthenticated: !!user })`. -/
def setUser (u : Option User) (s : AuthState) : AuthState :=
  { s with user := u, isAuthenticated := u.isSome }

/-- `setLoading` action: `set({ isLoading })`. -/
def setLoading (b : Bool) (s : AuthState) : AuthState :=
  { s with isLoading := b }

/-- `login` action of the store: `set({ user, isAuthenticated: true,
isLoading: false })`; its argument has TypeScript type `User`, hence non-null. -/
def storeLogin (u : User) (s : AuthState) : AuthState :=
  { s with user := some u, isAuthenticated := true, isLoading := false }

/-- `logout` action of the store: `set({ user: null, isAuthenticated: false,
isLoading: false })`. -/
def storeLogout (s : AuthState) : AuthState :=
  { s with user := none, isAuthenticated := false, isLoading := false }

/-- A `Partial<User>` as taken by the store's `updateUser` (each field
optionally present), restricted to the fields modelled here. -/
structure UserUpdate where
  id : Option String := none
  email : Option String := none
  is_superuser : Option Bool := none
  is_2fa_enabled : Option Bool := none
  roles : Option (List Role) := none
deriving Repr, DecidableEq

/-- JavaScript spread merge `{ ...state.user, ...updates }` for the modelled
fields. -/
def applyUpdates (upd : UserUpdate) (u : User) : User :=
  { id := upd.id.getD u.id
    email := upd.email.getD u.email
    is_superuser := upd.is_superuser.getD u.is_superuser
    is_2fa_enabled := upd.is_2fa_enabled.getD u.is_2fa_enabled
    roles := upd.roles.getD u.roles }

/-- `updateUser` action: `set((state) => ({ user: state.user ?
{ ...state.user, ...updates } : null }))`; `isAuthenticated` untouched. -/
def updateUser (upd : UserUpdate) (s : AuthState) : AuthState :=
  { s with user := s.user.map (applyUpdates upd) }

/-- `hasPermission` from `auth.ts`: null user (or missing roles array, which at
the TypeScript type never happens for a non-null user) gives false; a superuser
gets true before the role graph is consulted; otherwise some role must hold a
permission with the given name. -/
def hasPermission (user : Option User) (permission : String) : Bool :=
  match user with
  | none => false
  | some u =>
    if u.is_superuser then true
    else u.roles.any fun role => role.permissions.any fun perm => perm.name = permission

/-- `hasRole` from `auth.ts`. -/
def hasRole (user : Option User) (roleName : String) : Bool :=
  match user with
  | none => false
  | some u => u.roles.any fun role => role.name = roleName

/-- `hasAnyRole` from `auth.ts`: `user.roles.some(role =>
roleNames.includes(role.name))`. -/
def hasAnyRole (user : Option User) (roleNames : List String) : Bool :=
  match user with
  | none => false
  | some u => u.roles.any fun role => roleNames.contains role.name

/-- `hasAnyPermission` from `auth.ts`: superuser short-circuit, then
`permissions.some(p => get().hasPermission(p))`. -/
def hasAnyPermission (user : Option User) (permissions : List String) : Bool :=
  match user with
  | none => false
  | some u =>
    if u.is_superuser then true
    else permissions.any fun p => hasPermission (some u) p

/-- The permission side of `PermissionGate` in
`src/frontend/src/components/auth/ProtectedRoute.tsx`:
`requiredPermissions.length === 0 || (requireAll ? every(hasPermission) :
some(hasPermission))`. `requireAll = false` is the any-combinator,
`requireAll = true` the all-combinator. -/
def hasRequiredPermissions (requireAll : Bool) (requiredPermissions : List String)
    (user : Option User) : Bool :=
  requiredPermissions.isEmpty ||
    (if requireAll then requiredPermissions.all fun p => hasPermission user p
     else requiredPermissions.any fun p => hasPermission user p)

/-- The two client-side storage mediums used by `APIClient` in
`src/frontend/src/lib/api.ts`: cookies (persistent) and localStorage
(session-scoped), each holding an optional access and refresh token. -/
structure TokenStorage where
  cookieAccess : Option String
  cookieRefresh : Option String
  localAccess : Option String
  localRefresh : Option String
deriving Repr, DecidableEq

/-- Storage with no tokens anywhere. -/
def emptyStorage : TokenStorage :=
  { cookieAccess := none, cookieRefresh := none, localAccess := none, localRefresh := none }

/-- `getAccessToken`: `Cookies.get('access_token') ||
localStorage.getItem('access_token')`. -/
def getAccessToken (s : TokenStorage) : Option String :=
  s.cookieAccess.orElse fun _ => s.localAccess

/-- `getRefreshToken`: `Cookies.get('refresh_token') ||
localStorage.getItem('refresh_token')`. -/
def getRefreshToken (s : TokenStorage) : Option String :=
  s.cookieRefresh.orElse fun _ => s.localRefresh

/-- `setTokens(accessToken, refreshToken, rememberMe)`: cookies when
`rememberMe`, localStorage otherwise; the other medium is left as it was. -/
def setTokens (accessToken refreshToken : String) (rememberMe : Bool)
    (s : TokenStorage) : TokenStorage :=
  if rememberMe then
    { s with cookieAccess := some accessToken, cookieRefresh := some refreshToken }
  else
    { s with localAccess := some accessToken, localRefresh := some refreshToken }

/-- `clearTokens`: removes both tokens from both mediums. -/
def clearTokens (_s : TokenStorage) : TokenStorage := emptyStorage

/-- `Token` from `api.ts` (the fields `login` stores). -/
structure Token where
  access_token : String
  refresh_token : String
deriving Repr, DecidableEq

/-- The storage effect of `APIClient.login`: `this.setTokens(
token.access_token, token.refresh_token, credentials.remember_me)`. -/
def loginSetTokens (token : Token) (remember_me : Bool) (s : TokenStorage) : TokenStorage :=
  setTokens token.access_token token.refresh_token remember_me s

/-- The body of a successful `/auth/refresh` response. The repository's own
API.md documents the endpoint as returning only a new `access_token`; the spec
additionally promises a new refresh token, so the field is carried here, but
`refreshAccessToken` in `api.ts` destructures only `access_token`. -/
structure RefreshResponse where
  access_token : String
  refresh_token : Option String := none
deriving Repr, DecidableEq

/-- Client state for `APIClient`: the storage plus the single-flight
`refreshPromise` field (`Promise<string> | null`), modelled as the identifier
of the in-flight exchange, plus a counter of exchange requests actually issued
to the backend. -/
structure ClientState where
  storage : TokenStorage
  refreshPromise : Option Nat
  exchangeCount : Nat
deriving Repr, DecidableEq

/-- What a caller of `refreshAccessToken` gets back from its synchronous
prefix: the already in-flight promise, a newly started one, or `null` when no
refresh token is stored. -/
inductive RefreshCallResult where
  | sharedPromise (id : Nat)
  | newPromise (id : Nat)
  | noToken
deriving Repr, DecidableEq

/-- The promise id a `RefreshCallResult` resolves through, when any. -/
def RefreshCallResult.promiseId : RefreshCallResult → Option Nat
  | .sharedPromise id => some id
  | .newPromise id => some id
  | .noToken => none

/-- The synchronous prefix of `refreshAccessToken` (JavaScript runs it
atomically on the event loop): if `this.refreshPromise` is set, return it;
else if no refresh token is stored, return null; else issue one exchange to
the backend and publish its promise in `this.refreshPromise`. -/
def refreshCall (c : ClientState) : ClientState × RefreshCallResult :=
  match c.refreshPromise with
  | some id => (c, .sharedPromise id)
  | none =>
    match getRefreshToken c.storage with
    | none => (c, .noToken)
    | some _ =>
      ({ c with refreshPromise := some c.exchangeCount,
                exchangeCount := c.exchangeCount + 1 },
       .newPromise c.exchangeCount)

/-- `n` concurrent callers entering `refreshCall` one after another (the event
loop interleaves their synchronous prefixes in some order; any order gives
this shape). Returns the final client state and each caller's result. -/
def refreshCalls : Nat → ClientState → ClientState × List RefreshCallResult
  | 0, c => (c, [])
  | n + 1, c =>
    let step := refreshCall c
    let rest := refreshCalls n step.1
    (rest.1, step.2 :: rest.2)

/-- The `.then` handler of the exchange in `refreshAccessToken`: destructure
only `access_token`; write it to the cookie medium when a cookie access token
exists, else to localStorage; the `.finally` clears `refreshPromise`. The
refresh token in storage is not touched. -/
def refreshSettleSuccess (resp : RefreshResponse) (c : ClientState) :
    ClientState × Option String :=
  let s := c.storage
  let s' :=
    match s.cookieAccess with
    | some _ => { s with cookieAccess := some resp.access_token }
    | none => { s with localAccess := some resp.access_token }
  ({ c with storage := s', refreshPromise := none }, some resp.access_token)

/-- The `.catch` handler of the exchange in `refreshAccessToken`: clear both
storage mediums and resolve `null` (the rejection is swallowed, so the
returned promise never rejects); the `.finally` clears `refreshPromise`. -/
def refreshSettleFailure (c : ClientState) : ClientState × Option String :=
  ({ c with storage := clearTokens c.storage, refreshPromise := none }, none)

/-- Outcome of the backend exchange behind one `refreshAccessToken` run. -/
inductive RefreshOutcome where
  | success (resp : RefreshResponse)
  | failure
deriving Repr, DecidableEq

/-- One complete `await this.refreshAccessToken()` as seen by a single caller:
the synchronous prefix, then (when an exchange is in flight) settlement by the
backend outcome. Always resolves (with `Option String`), never rejects. -/
def refreshAccessTokenRun (c : ClientState) (outcome : RefreshOutcome) :
    ClientState × Option String :=
  let step := refreshCall c
  match step.2 with
  | .noToken => (step.1, none)
  | _ =>
    match outcome with
    | .success resp => refreshSettleSuccess resp step.1
    | .failure => refreshSettleFailure step.1

/-- A terminal HTTP result for a request: resolved data or a rejected error
carrying the HTTP status. -/
inductive HttpResult where
  | ok (data : String)
  | err (status : Nat)
deriving Repr, DecidableEq

/-- Observable outcome of one request's trip through the response interceptor
in `APIClient.setupInterceptors`. -/
structure AdapterRun where
  client : ClientState
  store : AuthState
  callerResult : HttpResult
  requestAttempts : Nat
  logoutCalls : Nat
deriving Repr, DecidableEq

/-- The response error interceptor in `api.ts`, for a request whose first
attempt came back `err status` with retry flag `retryFlag`
(`originalRequest._retry`). When `status = 401` and the flag is unset, the
flag is set, `refreshAccessToken` is awaited and, if it resolved a token, the
request is re-issued once with the new token attached; the retried attempt
passes through this same interceptor with the flag set, so its own `401` falls
through to `Promise.reject`. The `catch (refreshError)` branch that would call
`this.logout()` is unreachable: `refreshAccessToken` resolves `null` on
failure instead of rejecting, so `logoutCalls` stays 0 on every path. The
auth store is never written by the interceptor. `retryResult` is the backend's
answer to the retried attempt. -/
def interceptResponse (c : ClientState) (store : AuthState) (retryFlag : Bool)
    (status : Nat) (outcome : RefreshOutcome) (retryResult : HttpResult) : AdapterRun :=
  if status = 401 && !retryFlag then
    let refreshed := refreshAccessTokenRun c outcome
    match refreshed.2 with
    | some _newToken =>
      { client := refreshed.1, store := store, callerResult := retryResult,
        requestAttempts := 2, logoutCalls := 0 }
    | none =>
      { client := refreshed.1, store := store, callerResult := .err status,
        requestAttempts := 1, logoutCalls := 0 }
  else
    { client := c, store := store, callerResult := .err status,
      requestAttempts := 1, logoutCalls := 0 }

/-- What `AuthInitializer`'s `initializeAuth` checks first: `localStorage.
getItem('access_token') || document.cookie ... access_token`. -/
def readBootstrapToken (s : TokenStorage) : Option String :=
  s.localAccess.orElse fun _ => s.cookieAccess

/-- Observable outcome of one run of `initializeAuth` in `Providers`
(`src/unnamed/part_004`). -/
structure BootstrapRun where
  store : AuthState
  storage : TokenStorage
  whoAmICalled : Bool
  loadingClearCount : Nat
deriving Repr, DecidableEq

/-- `initializeAuth` from `AuthInitializer`: `setLoading(true)`; if an access
token is found in either medium, call `apiClient.getCurrentUser()` (the
"who am I" operation, outcome `who`), `setUser(user)` on success; on any
failure `setUser(null)` and remove both tokens from both mediums; with no
token, `setUser(null)` without calling the backend; the `finally` block runs
`setLoading(false)` exactly once on every path. -/
def initializeAuth (st : AuthState) (s : TokenStorage) (who : Except Unit User) :
    BootstrapRun :=
  let st1 := setLoading true st
  match readBootstrapToken s with
  | none =>
    { store := setLoading false (setUser none st1), storage := s,
      whoAmICalled := false, loadingClearCount := 1 }
  | some _ =>
    match who with
    | .ok u =>
      { store := setLoading false (setUser (some u) st1), storage := s,
        whoAmICalled := true, loadingClearCount := 1 }
    | .error _ =>
      { store := setLoading false (setUser none st1),
        storage := { s with localAccess := none, localRefresh := none,
                            cookieAccess := none, cookieRefresh := none },
        whoAmICalled := true, loadingClearCount := 1 }

/-- `LoginResponse` from `api.ts` (fields read by `LoginForm.onSubmit`). -/
structure LoginResponseM where
  user : User
  token : Token
  message : String
deriving Repr, DecidableEq

/-- The local component state of `LoginForm` that `onSubmit` touches. -/
structure LoginFormState where
  show2FA : Bool
  tempToken : String
deriving Repr, DecidableEq

/-- The success path of `LoginForm.onSubmit` (`src/unnamed/part_009`) after
`apiClient.login` resolved with `resp`: when the backend answers
`'Two-factor authentication required'`, only the component's local state
changes (`setShow2FA(true)`, `setTempToken(...)`) and the function returns —
the store's `login` action is not called; otherwise `login(response.user)`
runs. -/
def onSubmitSuccess (st : AuthState) (form : LoginFormState)
    (resp : LoginResponseM) : AuthState × LoginFormState :=
  if resp.message = "Two-factor authentication required" then
    (st, { show2FA := true, tempToken := resp.token.access_token })
  else
    (storeLogin resp.user st, form)

/-- The store actions, for iterating sequences of operations (C10). -/
inductive StoreAction where
  | setUserAct (u : Option User)
  | setLoadingAct (b : Bool)
  | loginAct (u : User)
  | logoutAct
  | updateUserAct (upd : UserUpdate)
deriving Repr

/-- Apply one store action. -/
def applyAction (s : AuthState) : StoreAction → AuthState
  | .setUserAct u => setUser u s
  | .setLoadingAct b => setLoading b s
  | .loginAct u => storeLogin u s
  | .logoutAct => storeLogout s
  | .updateUserAct upd => updateUser upd s

/-- Apply a sequence of store actions from left to right. -/
def runActions (s : AuthState) (acts : List StoreAction) : AuthState :=
  acts.foldl applyAction s

/-- The auth-store consistency invariant: the flag mirrors presence of a user. -/
def authInvariant (s : AuthState) : Prop :=
  s.isAuthenticated = s.user.isSome

/-- A concrete non-superuser holding one role with permissions named `A`, `B`. -/
def demoUser : User :=
  { id := "u1", email := "a@x.com", is_superuser := false, is_2fa_enabled := false,
    roles := [{ name := "admin",
                permissions := [{ name := "A", resource := "r", action := "read" },
                                { name := "B", resource := "r", action := "write" }] }] }

/-- A concrete superuser with an empty role set. -/
def demoSuperuser : User :=
  { id := "u2", email := "root@x.com", is_superuser := true, is_2fa_enabled := false,
    roles := [] }

/-- C2: `hasPermission(name)` is true iff the user is set and either
`is_superuser` holds or some held role has a permission named `name`; a
superuser passes every check regardless of the role list. -/
theorem C2_hasPermission_characterization :
    (∀ (user : Option User) (name : String),
      hasPermission user name = true ↔
        ∃ u, user = some u ∧ (u.is_superuser = true ∨
          ∃ r ∈ u.roles, ∃ p ∈ r.permissions, p.name = name)) ∧
    (∀ (u : User) (name : String), u.is_superuser = true →
      hasPermission (some u) name = true) := by
  constructor
  · intro user name
    cases user with
    | none => simp [hasPermission]
    | some u =>
      by_cases hs : u.is_superuser
      · simp [hasPermission, hs]
      · simp [hasPermission, hs, List.any_eq_true]
  · intro u name hs
    simp [hasPermission, hs]

/-- C2 witness: a superuser with no roles holds an arbitrary permission, and
`demoUser` holds `A` through its role. -/
theorem C2_hasPermission_witness :
    demoSuperuser.is_superuser = true ∧
    hasPermission (some demoSuperuser) "anything.whatsoever" = true ∧
    (hasPermission (some demoUser) "A" = true ↔
      ∃ u, some demoUser = some u ∧ (u.is_superuser = true ∨
        ∃ r ∈ u.roles, ∃ p ∈ r.permissions, p.name = "A")) :=
  ⟨rfl, C2_hasPermission_characterization.2 demoSuperuser "anything.whatsoever" rfl,
   C2_hasPermission_characterization.1 (some demoUser) "A"⟩

/-- C3: when login answers that a second factor is required, `onSubmit` leaves
the store untouched (the store's `login` action is not called), so the user is
still null and every permission check fails while awaiting the second factor. -/
theorem C3_second_factor_gating :
    ∀ (st : AuthState) (form : LoginFormState) (resp : LoginResponseM),
      st.user = none →
      resp.message = "Two-factor authentication required" →
      (onSubmitSuccess st form resp).1 = st ∧
      (onSubmitSuccess st form resp).1.user = none ∧
      (onSubmitSuccess st form resp).2.show2FA = true ∧
      ∀ name, hasPermission (onSubmitSuccess st form resp).1.user name = false := by
  intro st form resp hu hm
  refine ⟨by simp [onSubmitSuccess, hm], by simp [onSubmitSuccess, hm, hu], by
    simp [onSubmitSuccess, hm], ?_⟩
  intro name
  simp [onSubmitSuccess, hm, hu, hasPermission]

/-- C3 witness: a concrete two-factor-required response against the initial
store state. -/
theorem C3_second_factor_gating_witness :
    (onSubmitSuccess initialAuthState { show2FA := false, tempToken := "" }
      { user := demoSuperuser, token := { access_token := "tmp", refresh_token := "" },
        message := "Two-factor authentication required" }).1 = initialAuthState ∧
    (onSubmitSuccess initialAuthState { show2FA := false, tempToken := "" }
      { user := demoSuperuser, token := { access_token := "tmp", refresh_token := "" },
        message := "Two-factor authentication required" }).1.user = none ∧
    (onSubmitSuccess initialAuthState { show2FA := false, tempToken := "" }
      { user := demoSuperuser, token := { access_token := "tmp", refresh_token := "" },
        message := "Two-factor authentication required" }).2.show2FA = true ∧
    ∀ name, hasPermission (onSubmitSuccess initialAuthState
      { show2FA := false, tempToken := "" }
      { user := demoSuperuser, token := { access_token := "tmp", refresh_token := "" },
        message := "Two-factor authentication required" }).1.user name = false :=
  C3_second_factor_gating initialAuthState { show2FA := false, tempToken := "" }
    { user := demoSuperuser, token := { access_token := "tmp", refresh_token := "" },
      message := "Two-factor authentication required" } rfl rfl

/-- C7 counterexample: on the empty permission list the any-combinator of
`PermissionGate` returns true (via the `length === 0` short-circuit) although
no listed name is held — not even a user is present — so the claimed
"true iff at least one listed name is held" fails as stated for every list. -/
theorem C7_counterexample :
    hasRequiredPermissions false [] none = true ∧
    ¬ ∃ p ∈ ([] : List String), hasPermission none p = true :=
  ⟨rfl, by simp⟩

/-- C7 amended: for every nonempty list the any-combinator (both
`PermissionGate` with `requireAll = false` and the store's
`hasAnyPermission`) is true iff at least one listed name is held per
`hasPermission`; the all-combinator (`requireAll = true`) is true for every
list iff every listed name is held; on the empty list the gate returns true
regardless of the user. The concrete `{A, B}` example behaves as the spec
says. -/
theorem C7_any_all_semantics :
    (∀ (perms : List String) (user : Option User), perms ≠ [] →
      (hasRequiredPermissions false perms user = true ↔
        ∃ p ∈ perms, hasPermission user p = true)) ∧
    (∀ (perms : List String) (user : Option User), perms ≠ [] →
      (hasAnyPermission user perms = true ↔
        ∃ p ∈ perms, hasPermission user p = true)) ∧
    (∀ (perms : List String) (user : Option User),
      (hasRequiredPermissions true perms user = true ↔
        ∀ p ∈ perms, hasPermission user p = true)) ∧
    (hasRequiredPermissions false ["A", "C"] (some demoUser) = true ∧
     hasRequiredPermissions true ["A", "C"] (some demoUser) = false) := by
  refine ⟨?_, ?_, ?_, by constructor <;> rfl⟩
  · intro perms user hne
    simp [hasRequiredPermissions, List.isEmpty_iff, hne, List.any_eq_true]
  · intro perms user hne
    cases user with
    | none => simp [hasAnyPermission, hasPermission]
    | some u =>
      by_cases hs : u.is_superuser
      · simp only [hasAnyPermission, hs, if_true]
        constructor
        · intro _
          match perms, hne with
          | p :: _, _ => exact ⟨p, List.mem_cons_self p _, by simp [hasPermission, hs]⟩
        · intro _; trivial
      · simp [hasAnyPermission, hs, List.any_eq_true]
  · intro perms user
    by_cases he : perms = []
    · subst he; simp [hasRequiredPermissions]
    · simp [hasRequiredPermissions, List.isEmpty_iff, he, List.all_eq_true]

/-- C7 witness: the amended semantics at the spec's own example — roles hold
`{A, B}`, the list is `["A", "C"]`. -/
theorem C7_any_all_semantics_witness :
    (hasRequiredPermissions false ["A", "C"] (some demoUser) = true ↔
      ∃ p ∈ ["A", "C"], hasPermission (some demoUser) p = true) ∧
    (hasAnyPermission (some demoUser) ["A", "C"] = true ↔
      ∃ p ∈ ["A", "C"], hasPermission (some demoUser) p = true) ∧
    (hasRequiredPermissions true ["A", "C"] (some demoUser) = true ↔
      ∀ p ∈ ["A", "C"], hasPermission (some demoUser) p = true) :=
  ⟨C7_any_all_semantics.1 ["A", "C"] (some demoUser) (by simp),
   C7_any_all_semantics.2.1 ["A", "C"] (some demoUser) (by simp),
   C7_any_all_semantics.2.2.1 ["A", "C"] (some demoUser)⟩

/-- Each single store action preserves the flag/user consistency invariant. -/
theorem applyAction_preserves_invariant (s : AuthState) (a : StoreAction)
    (h : authInvariant s) : authInvariant (applyAction s a) := by
  cases a with
  | setUserAct u => simp [applyAction, setUser, authInvariant]
  | setLoadingAct b => simpa [applyAction, setLoading, authInvariant] using h
  | loginAct u => simp [applyAction, storeLogin, authInvariant]
  | logoutAct => simp [applyAction, storeLogout, authInvariant]
  | updateUserAct upd =>
    simp only [authInvariant, applyAction, updateUser] at h ⊢
    rw [h]
    cases s.user <;> simp

/-- Any sequence of store actions preserves the consistency invariant. -/
theorem runActions_preserves_invariant (acts : List StoreAction) :
    ∀ (s : AuthState), authInvariant s → authInvariant (runActions s acts) := by
  induction acts with
  | nil => intro s h; simpa [runActions] using h
  | cons a rest ih =>
    intro s h
    have h1 := applyAction_preserves_invariant s a h
    simpa [runActions, List.foldl_cons] using ih (applyAction s a) h1

/-- C10: from the initial store state, every sequence of store operations
keeps `isAuthenticated` equal to the presence of a user, and `updateUser`
applied with a null user leaves the user null and the flag unchanged. -/
theorem C10_auth_store_invariant :
    (∀ acts : List StoreAction, authInvariant (runActions initialAuthState acts)) ∧
    (∀ (s : AuthState) (upd : UserUpdate), s.user = none →
      (updateUser upd s).user = none ∧
      (updateUser upd s).isAuthenticated = s.isAuthenticated) := by
  constructor
  · intro acts
    exact runActions_preserves_invariant acts initialAuthState rfl
  · intro s upd h
    simp [updateUser, h]

/-- C10 witness: a concrete action sequence, and `updateUser` on the initial
(null-user) state. -/
theorem C10_auth_store_invariant_witness :
    authInvariant (runActions initialAuthState
      [.loginAct demoUser, .updateUserAct { email := some "b@x.com" },
       .setLoadingAct true, .logoutAct]) ∧
    ((updateUser { email := some "b@x.com" } initialAuthState).user = none ∧
     (updateUser { email := some "b@x.com" } initialAuthState).isAuthenticated =
       initialAuthState.isAuthenticated) :=
  ⟨C10_auth_store_invariant.1
      [.loginAct demoUser, .updateUserAct { email := some "b@x.com" },
       .setLoadingAct true, .logoutAct],
   C10_auth_store_invariant.2 initialAuthState { email := some "b@x.com" } rfl⟩

/-- C9: session bootstrap. With no access token in either medium the store
ends with a null user (Unauthenticated) and no who-am-I call; with a token,
success yields that identity with the flag set, and any failure clears both
mediums and yields a null user; on every path the loading flag ends false and
`setLoading(false)` runs exactly once. -/
theorem C9_session_bootstrap :
    ∀ (st : AuthState) (s : TokenStorage) (who : Except Unit User),
      (initializeAuth st s who).loadingClearCount = 1 ∧
      (initializeAuth st s who).store.isLoading = false ∧
      (readBootstrapToken s = none →
        (initializeAuth st s who).store.user = none ∧
        (initializeAuth st s who).store.isAuthenticated = false ∧
        (initializeAuth st s who).whoAmICalled = false ∧
        (initializeAuth st s who).storage = s) ∧
      (∀ t, readBootstrapToken s = some t →
        (initializeAuth st s who).whoAmICalled = true ∧
        (∀ u, who = .ok u →
          (initializeAuth st s who).store.user = some u ∧
          (initializeAuth st s who).store.isAuthenticated = true ∧
          (initializeAuth st s who).storage = s) ∧
        (∀ e, who = .error e →
          (initializeAuth st s who).store.user = none ∧
          (initializeAuth st s who).store.isAuthenticated = false ∧
          (initializeAuth st s who).storage = emptyStorage)) := by
  intro st s who
  cases hb : readBootstrapToken s with
  | none =>
    cases who <;>
      simp [initializeAuth, hb, setLoading, setUser, emptyStorage]
  | some t =>
    cases who <;>
      simp [initializeAuth, hb, setLoading, setUser, emptyStorage]

/-- C9 witness: empty storage skips the backend, a stored token with a failing
who-am-I call clears everything, and both clear the loading flag once. -/
theorem C9_session_bootstrap_witness :
    (initializeAuth initialAuthState emptyStorage (.ok demoUser)).loadingClearCount = 1 ∧
    (initializeAuth initialAuthState emptyStorage (.ok demoUser)).store.user = none ∧
    (initializeAuth initialAuthState emptyStorage (.ok demoUser)).whoAmICalled = false ∧
    (initializeAuth initialAuthState
        { emptyStorage with localAccess := some "a0", localRefresh := some "r0" }
        (.error ())).store.isAuthenticated = false ∧
    (initializeAuth initialAuthState
        { emptyStorage with localAccess := some "a0", localRefresh := some "r0" }
        (.error ())).storage = emptyStorage :=
  ⟨(C9_session_bootstrap initialAuthState emptyStorage (.ok demoUser)).1,
   ((C9_session_bootstrap initialAuthState emptyStorage (.ok demoUser)).2.2.1 rfl).1,
   ((C9_session_bootstrap initialAuthState emptyStorage (.ok demoUser)).2.2.1 rfl).2.2.1,
   (((C9_session_bootstrap initialAuthState
        { emptyStorage with localAccess := some "a0", localRefresh := some "r0" }
        (.error ())).2.2.2 "a0" rfl).2.2 () rfl).2.1,
   (((C9_session_bootstrap initialAuthState
        { emptyStorage with localAccess := some "a0", localRefresh := some "r0" }
        (.error ())).2.2.2 "a0" rfl).2.2 () rfl).2.2⟩

/-- The cookie medium holds some credential. -/
def cookieMediumPopulated (s : TokenStorage) : Bool :=
  s.cookieAccess.isSome || s.cookieRefresh.isSome

/-- The localStorage medium holds some credential. -/
def localMediumPopulated (s : TokenStorage) : Bool :=
  s.localAccess.isSome || s.localRefresh.isSome

/-- C8 counterexample: `setTokens` never clears the other medium, so a login
with `remember_me = true` followed by one with `remember_me = false` leaves
both mediums populated at once, refuting "at no point are both mediums
populated at the same time". -/
theorem C8_counterexample :
    cookieMediumPopulated
      (loginSetTokens { access_token := "a2", refresh_token := "r2" } false
        (loginSetTokens { access_token := "a1", refresh_token := "r1" } true
          emptyStorage)) = true ∧
    localMediumPopulated
      (loginSetTokens { access_token := "a2", refresh_token := "r2" } false
        (loginSetTokens { access_token := "a1", refresh_token := "r1" } true
          emptyStorage)) = true :=
  ⟨rfl, rfl⟩

/-- C8 amended: a login applied to an empty credential store populates exactly
the medium selected by `remember_me` and leaves the other empty; but
`setTokens` leaves whatever the other medium already held, so the exclusivity
is only guaranteed from an empty store, not across consecutive logins with
different flags. -/
theorem C8_storage_medium_selection :
    ∀ (tok : Token) (rm : Bool),
      (rm = true →
        cookieMediumPopulated (loginSetTokens tok rm emptyStorage) = true ∧
        localMediumPopulated (loginSetTokens tok rm emptyStorage) = false) ∧
      (rm = false →
        localMediumPopulated (loginSetTokens tok rm emptyStorage) = true ∧
        cookieMediumPopulated (loginSetTokens tok rm emptyStorage) = false) ∧
      (∀ s : TokenStorage,
        localMediumPopulated (loginSetTokens tok true s) = localMediumPopulated s ∧
        cookieMediumPopulated (loginSetTokens tok false s) = cookieMediumPopulated s) := by
  intro tok rm
  refine ⟨?_, ?_, ?_⟩
  · intro h; subst h
    exact ⟨rfl, rfl⟩
  · intro h; subst h
    exact ⟨rfl, rfl⟩
  · intro s
    exact ⟨rfl, rfl⟩

/-- C8 witness: the spec's own scenario, `remember = false` from an empty
store populates the session-scoped medium only. -/
theorem C8_storage_medium_selection_witness :
    localMediumPopulated
      (loginSetTokens { access_token := "a1", refresh_token := "r1" } false
        emptyStorage) = true ∧
    cookieMediumPopulated
      (loginSetTokens { access_token := "a1", refresh_token := "r1" } false
        emptyStorage) = false :=
  (C8_storage_medium_selection { access_token := "a1", refresh_token := "r1" }
    false).2.1 rfl

/-- C4 counterexample: with the pair `(a0, r0)` in localStorage and a
successful exchange returning access token `a1` (and, as the spec promises,
a rotated refresh token `r1`), the client keeps storing the OLD refresh token
`r0`: `refreshAccessToken` destructures only `access_token`, so the stored
pair is not replaced with the new pair and the old refresh token is still
stored. -/
theorem C4_counterexample :
    getRefreshToken (refreshAccessTokenRun
      { storage := { cookieAccess := none, cookieRefresh := none,
                     localAccess := some "a0", localRefresh := some "r0" },
        refreshPromise := none, exchangeCount := 0 }
      (.success { access_token := "a1", refresh_token := some "r1" })).1.storage
      = some "r0" ∧
    getRefreshToken (refreshAccessTokenRun
      { storage := { cookieAccess := none, cookieRefresh := none,
                     localAccess := some "a0", localRefresh := some "r0" },
        refreshPromise := none, exchangeCount := 0 }
      (.success { access_token := "a1", refresh_token := some "r1" })).1.storage
      ≠ some "r1" :=
  ⟨rfl, by decide⟩

/-- C4 amended: after a successful refresh exchange the client resolves the
new access token and writes it into the medium that already held a cookie
access token (else into localStorage); the stored refresh token is left
unchanged in both mediums — the pair is not rotated. -/
theorem C4_refresh_updates_access_only :
    ∀ (c : ClientState) (resp : RefreshResponse) (t : String),
      c.refreshPromise = none →
      getRefreshToken c.storage = some t →
      (refreshAccessTokenRun c (.success resp)).2 = some resp.access_token ∧
      (refreshAccessTokenRun c (.success resp)).1.storage.cookieRefresh =
        c.storage.cookieRefresh ∧
      (refreshAccessTokenRun c (.success resp)).1.storage.localRefresh =
        c.storage.localRefresh ∧
      getRefreshToken (refreshAccessTokenRun c (.success resp)).1.storage = some t ∧
      (∀ a, c.storage.cookieAccess = some a →
        (refreshAccessTokenRun c (.success resp)).1.storage.cookieAccess =
          some resp.access_token) ∧
      (c.storage.cookieAccess = none →
        (refreshAccessTokenRun c (.success resp)).1.storage.localAccess =
          some resp.access_token) := by
  intro c resp t hp hr
  have hrun : refreshAccessTokenRun c (.success resp) =
      refreshSettleSuccess resp
        { c with refreshPromise := some c.exchangeCount,
                 exchangeCount := c.exchangeCount + 1 } := by
    simp [refreshAccessTokenRun, refreshCall, hp, hr]
  rw [hrun]
  cases hca : c.storage.cookieAccess with
  | none =>
    refine ⟨?_, ?_, ?_, ?_, ?_, ?_⟩
    · simp [refreshSettleSuccess, hca]
    · simp [refreshSettleSuccess, hca]
    · simp [refreshSettleSuccess, hca]
    · simp only [refreshSettleSuccess, hca]
      simpa [getRefreshToken] using hr
    · intro a ha
      exact absurd ha (by simp)
    · intro _
      simp [refreshSettleSuccess, hca]
  | some a0 =>
    refine ⟨?_, ?_, ?_, ?_, ?_, ?_⟩
    · simp [refreshSettleSuccess, hca]
    · simp [refreshSettleSuccess, hca]
    · simp [refreshSettleSuccess, hca]
    · simp only [refreshSettleSuccess, hca]
      simpa [getRefreshToken] using hr
    · intro a ha
      simp [refreshSettleSuccess, hca]
    · intro hnone
      exact absurd hnone (by simp)

/-- C4 witness: the amended behavior at a concrete localStorage-held pair. -/
theorem C4_refresh_updates_access_only_witness :
    (refreshAccessTokenRun
      { storage := { cookieAccess := none, cookieRefresh := none,
                     localAccess := some "a0", localRefresh := some "r0" },
        refreshPromise := none, exchangeCount := 0 }
      (.success { access_token := "a1", refresh_token := some "r1" })).2 = some "a1" ∧
    (refreshAccessTokenRun
      { storage := { cookieAccess := none, cookieRefresh := none,
                     localAccess := some "a0", localRefresh := some "r0" },
        refreshPromise := none, exchangeCount := 0 }
      (.success { access_token := "a1", refresh_token := some "r1" })).1.storage.localRefresh
      = some "r0" ∧
    (refreshAccessTokenRun
      { storage := { cookieAccess := none, cookieRefresh := none,
                     localAccess := some "a0", localRefresh := some "r0" },
        refreshPromise := none, exchangeCount := 0 }
      (.success { access_token := "a1", refresh_token := some "r1" })).1.storage.localAccess
      = some "a1" := by
  have h := C4_refresh_updates_access_only
    { storage := { cookieAccess := none, cookieRefresh := none,
                   localAccess := some "a0", localRefresh := some "r0" },
      refreshPromise := none, exchangeCount := 0 }
    { access_token := "a1", refresh_token := some "r1" } "r0" rfl rfl
  exact ⟨h.1, h.2.2.1, h.2.2.2.2.2 rfl⟩

/-- Once a refresh is in flight, further callers do not change the client
state and all receive the shared promise. -/
theorem refreshCalls_inflight (n : Nat) (c : ClientState) (id : Nat)
    (h : c.refreshPromise = some id) :
    refreshCalls n c = (c, List.replicate n (.sharedPromise id)) := by
  induction n with
  | zero => simp [refreshCalls]
  | succ m ih =>
    have hc : refreshCall c = (c, .sharedPromise id) := by
      simp [refreshCall, h]
    simp [refreshCalls, hc, ih, List.replicate]

/-- C1: single-flight refresh. A caller arriving while `refreshPromise` is set
gets that same in-flight promise and changes nothing; and from an idle client
holding a refresh token, any number `n ≥ 1` of concurrent callers issues
exactly one exchange to the backend, every caller resolving through that one
exchange's promise. -/
theorem C1_single_flight_refresh :
    (∀ (c : ClientState) (id : Nat), c.refreshPromise = some id →
      refreshCall c = (c, .sharedPromise id)) ∧
    (∀ (n : Nat) (c : ClientState) (t : String),
      c.refreshPromise = none → getRefreshToken c.storage = some t → 1 ≤ n →
      (refreshCalls n c).1.exchangeCount = c.exchangeCount + 1 ∧
      (refreshCalls n c).1.refreshPromise = some c.exchangeCount ∧
      ∀ r ∈ (refreshCalls n c).2,
        RefreshCallResult.promiseId r = some c.exchangeCount) := by
  constructor
  · intro c id h
    simp [refreshCall, h]
  · intro n c t hp hr hn
    match n, hn with
    | m + 1, _ =>
      have hc : refreshCall c =
          ({ c with refreshPromise := some c.exchangeCount,
                    exchangeCount := c.exchangeCount + 1 },
           .newPromise c.exchangeCount) := by
        simp [refreshCall, hp, hr]
      have hrest := refreshCalls_inflight m
        { c with refreshPromise := some c.exchangeCount,
                 exchangeCount := c.exchangeCount + 1 }
        c.exchangeCount rfl
      refine ⟨?_, ?_, ?_⟩
      · simp [refreshCalls, hc, hrest]
      · simp [refreshCalls, hc, hrest]
      · intro r hrmem
        simp only [refreshCalls, hc, hrest, List.mem_cons] at hrmem
        rcases hrmem with h1 | h2
        · subst h1; rfl
        · have := List.eq_of_mem_replicate h2
          subst this; rfl

/-- C1 witness: three concurrent callers against an idle client with a stored
refresh token issue exactly one exchange; a fourth caller arriving mid-flight
shares that promise. -/
theorem C1_single_flight_refresh_witness :
    (refreshCall { storage := emptyStorage, refreshPromise := some 5, exchangeCount := 7 } =
      ({ storage := emptyStorage, refreshPromise := some 5, exchangeCount := 7 },
       .sharedPromise 5)) ∧
    ((refreshCalls 3 { storage := { cookieAccess := none, cookieRefresh := none,
                                    localAccess := some "a0", localRefresh := some "r0" },
                       refreshPromise := none, exchangeCount := 0 }).1.exchangeCount = 0 + 1 ∧
     (refreshCalls 3 { storage := { cookieAccess := none, cookieRefresh := none,
                                    localAccess := some "a0", localRefresh := some "r0" },
                       refreshPromise := none, exchangeCount := 0 }).1.refreshPromise = some 0 ∧
     ∀ r ∈ (refreshCalls 3 { storage := { cookieAccess := none, cookieRefresh := none,
                                          localAccess := some "a0", localRefresh := some "r0" },
                             refreshPromise := none, exchangeCount := 0 }).2,
       RefreshCallResult.promiseId r = some 0) :=
  ⟨C1_single_flight_refresh.1
      { storage := emptyStorage, refreshPromise := some 5, exchangeCount := 7 } 5 rfl,
   C1_single_flight_refresh.2 3
      { storage := { cookieAccess := none, cookieRefresh := none,
                     localAccess := some "a0", localRefresh := some "r0" },
        refreshPromise := none, exchangeCount := 0 } "r0" rfl rfl (by decide)⟩

/-- C5 counterexample: first attempt gets 401, refresh succeeds, retry gets
401 again. The caller does receive the terminal 401 after exactly one retry,
but `logout()` is never invoked and the auth store still shows an
authenticated user — the interceptor's logout branch is dead code because
`refreshAccessToken` resolves `null` on failure instead of rejecting, and no
path writes the store. -/
theorem C5_counterexample :
    (interceptResponse
      { storage := { cookieAccess := none, cookieRefresh := none,
                     localAccess := some "a0", localRefresh := some "r0" },
        refreshPromise := none, exchangeCount := 0 }
      { user := some demoUser, isAuthenticated := true, isLoading := false }
      false 401 (.success { access_token := "a1" }) (.err 401)).requestAttempts = 2 ∧
    (interceptResponse
      { storage := { cookieAccess := none, cookieRefresh := none,
                     localAccess := some "a0", localRefresh := some "r0" },
        refreshPromise := none, exchangeCount := 0 }
      { user := some demoUser, isAuthenticated := true, isLoading := false }
      false 401 (.success { access_token := "a1" }) (.err 401)).callerResult = .err 401 ∧
    (interceptResponse
      { storage := { cookieAccess := none, cookieRefresh := none,
                     localAccess := some "a0", localRefresh := some "r0" },
        refreshPromise := none, exchangeCount := 0 }
      { user := some demoUser, isAuthenticated := true, isLoading := false }
      false 401 (.success { access_token := "a1" }) (.err 401)).logoutCalls = 0 ∧
    (interceptResponse
      { storage := { cookieAccess := none, cookieRefresh := none,
                     localAccess := some "a0", localRefresh := some "r0" },
        refreshPromise := none, exchangeCount := 0 }
      { user := some demoUser, isAuthenticated := true, isLoading := false }
      false 401 (.success { access_token := "a1" }) (.err 401)).store.isAuthenticated
      = true :=
  ⟨rfl, rfl, rfl, rfl⟩

/-- C5 amended: a 401 on a not-yet-retried request triggers a refresh and,
when the refresh resolves a token, exactly one retry whose own outcome is what
the caller observes; a request already flagged as retried is never retried
again (its 401 is surfaced as the terminal error); no path makes more than two
attempts — but `logout()` is never invoked and the auth store is left exactly
as it was, so the final state is not `Unauthenticated`. -/
theorem C5_retry_once :
    ∀ (c : ClientState) (st : AuthState) (retryFlag : Bool) (status : Nat)
      (outcome : RefreshOutcome) (rr : HttpResult),
      (interceptResponse c st retryFlag status outcome rr).requestAttempts ≤ 2 ∧
      (interceptResponse c st retryFlag status outcome rr).logoutCalls = 0 ∧
      (interceptResponse c st retryFlag status outcome rr).store = st ∧
      (∀ (resp : RefreshResponse) (t : String),
        c.refreshPromise = none → getRefreshToken c.storage = some t →
        outcome = .success resp → retryFlag = false → status = 401 →
        (interceptResponse c st retryFlag status outcome rr).requestAttempts = 2 ∧
        (interceptResponse c st retryFlag status outcome rr).callerResult = rr) ∧
      (retryFlag = true →
        (interceptResponse c st retryFlag status outcome rr).requestAttempts = 1 ∧
        (interceptResponse c st retryFlag status outcome rr).callerResult =
          .err status) := by
  intro c st retryFlag status outcome rr
  by_cases hcond : status = 401 ∧ retryFlag = false
  · obtain ⟨hs, hf⟩ := hcond
    subst hs; subst hf
    cases hres : (refreshAccessTokenRun c outcome).2 with
    | none =>
      refine ⟨?_, ?_, ?_, ?_, ?_⟩
      · simp [interceptResponse, hres]
      · simp [interceptResponse, hres]
      · simp [interceptResponse, hres]
      · intro resp t hp hr ho _ _
        subst ho
        have hrun : refreshAccessTokenRun c (.success resp) =
            refreshSettleSuccess resp
              { c with refreshPromise := some c.exchangeCount,
                       exchangeCount := c.exchangeCount + 1 } := by
          simp [refreshAccessTokenRun, refreshCall, hp, hr]
        rw [hrun] at hres
        exact absurd hres (by simp [refreshSettleSuccess])
      · intro hcontra
        exact absurd hcontra (by simp)
    | some tok =>
      refine ⟨?_, ?_, ?_, ?_, ?_⟩
      · simp [interceptResponse, hres]
      · simp [interceptResponse, hres]
      · simp [interceptResponse, hres]
      · intro resp t hp hr ho _ _
        constructor
        · simp [interceptResponse, hres]
        · simp [interceptResponse, hres]
      · intro hcontra
        exact absurd hcontra (by simp)
  · have hgate : (status = 401 && !retryFlag) = false := by
      rcases Decidable.not_and_iff_or_not.mp hcond with h | h
      · simp [h]
      · have ht : retryFlag = true := by
          cases retryFlag
          · exact absurd rfl h
          · rfl
        simp [ht]
    refine ⟨?_, ?_, ?_, ?_, ?_⟩
    · simp [interceptResponse, hgate]
    · simp [interceptResponse, hgate]
    · simp [interceptResponse, hgate]
    · intro resp t hp hr ho hflag hstat
      exact absurd ⟨hstat, hflag⟩ hcond
    · intro _
      constructor
      · simp [interceptResponse, hgate]
      · simp [interceptResponse, hgate]

/-- C5 witness: concrete run with a successful refresh — the request is
retried exactly once and the retry's result reaches the caller, with no
logout; a second run with the retry flag already set is not retried. -/
theorem C5_retry_once_witness :
    ((interceptResponse
        { storage := { cookieAccess := none, cookieRefresh := none,
                       localAccess := some "a0", localRefresh := some "r0" },
          refreshPromise := none, exchangeCount := 0 }
        { user := some demoUser, isAuthenticated := true, isLoading := false }
        false 401 (.success { access_token := "a1" }) (.ok "payload")).requestAttempts = 2 ∧
     (interceptResponse
        { storage := { cookieAccess := none, cookieRefresh := none,
                       localAccess := some "a0", localRefresh := some "r0" },
          refreshPromise := none, exchangeCount := 0 }
        { user := some demoUser, isAuthenticated := true, isLoading := false }
        false 401 (.success { access_token := "a1" }) (.ok "payload")).callerResult
        = .ok "payload") ∧
    (interceptResponse
        { storage := { cookieAccess := none, cookieRefresh := none,
                       localAccess := some "a0", localRefresh := some "r0" },
          refreshPromise := none, exchangeCount := 0 }
        { user := some demoUser, isAuthenticated := true, isLoading := false }
        false 401 (.success { access_token := "a1" }) (.ok "payload")).logoutCalls = 0 ∧
    ((interceptResponse
        { storage := { cookieAccess := none, cookieRefresh := none,
                       localAccess := some "a0", localRefresh := some "r0" },
          refreshPromise := none, exchangeCount := 0 }
        { user := some demoUser, isAuthenticated := true, isLoading := false }
        true 401 (.success { access_token := "a1" }) (.ok "payload")).requestAttempts = 1 ∧
     (interceptResponse
        { storage := { cookieAccess := none, cookieRefresh := none,
                       localAccess := some "a0", localRefresh := some "r0" },
          refreshPromise := none, exchangeCount := 0 }
        { user := some demoUser, isAuthenticated := true, isLoading := false }
        true 401 (.success { access_token := "a1" }) (.ok "payload")).callerResult
        = .err 401) :=
  ⟨(C5_retry_once
      { storage := { cookieAccess := none, cookieRefresh := none,
                     localAccess := some "a0", localRefresh := some "r0" },
        refreshPromise := none, exchangeCount := 0 }
      { user := some demoUser, isAuthenticated := true, isLoading := false }
      false 401 (.success { access_token := "a1" }) (.ok "payload")).2.2.2.1
      { access_token := "a1" } "r0" rfl rfl rfl rfl rfl,
   (C5_retry_once
      { storage := { cookieAccess := none, cookieRefresh := none,
                     localAccess := some "a0", localRefresh := some "r0" },
        refreshPromise := none, exchangeCount := 0 }
      { user := some demoUser, isAuthenticated := true, isLoading := false }
      false 401 (.success { access_token := "a1" }) (.ok "payload")).2.1,
   (C5_retry_once
      { storage := { cookieAccess := none, cookieRefresh := none,
                     localAccess := some "a0", localRefresh := some "r0" },
        refreshPromise := none, exchangeCount := 0 }
      { user := some demoUser, isAuthenticated := true, isLoading := false }
      true 401 (.success { access_token := "a1" }) (.ok "payload")).2.2.2.2 rfl⟩

/-- C6 counterexample: the backend rejects the refresh token (`RefreshInvalid`).
Stored credentials are cleared from both mediums, but the auth store still
holds an authenticated user afterwards — the state machine is NOT transitioned
to `Unauthenticated`, and the refresh resolves `null` instead of surfacing an
error, so a component reading the store observes a stale `Authenticated`
state. -/
theorem C6_counterexample :
    (interceptResponse
      { storage := { cookieAccess := none, cookieRefresh := none,
                     localAccess := some "a0", localRefresh := some "r0" },
        refreshPromise := none, exchangeCount := 0 }
      { user := some demoUser, isAuthenticated := true, isLoading := false }
      false 401 .failure (.err 401)).client.storage = emptyStorage ∧
    (interceptResponse
      { storage := { cookieAccess := none, cookieRefresh := none,
                     localAccess := some "a0", localRefresh := some "r0" },
        refreshPromise := none, exchangeCount := 0 }
      { user := some demoUser, isAuthenticated := true, isLoading := false }
      false 401 .failure (.err 401)).store.isAuthenticated = true ∧
    (interceptResponse
      { storage := { cookieAccess := none, cookieRefresh := none,
                     localAccess := some "a0", localRefresh := some "r0" },
        refreshPromise := none, exchangeCount := 0 }
      { user := some demoUser, isAuthenticated := true, isLoading := false }
      false 401 .failure (.err 401)).store.user = some demoUser :=
  ⟨rfl, rfl, rfl⟩

/-- C6 amended: on a failed refresh exchange the client clears the stored
credentials from both mediums, resolves `null` without retrying the refresh
(exactly one exchange was issued and `refreshPromise` is cleared), and the
caller's original 401 is surfaced — but the auth store is not written, so the
authentication state is not transitioned to `Unauthenticated`. -/
theorem C6_refresh_invalid_clears_credentials :
    ∀ (c : ClientState) (t : String),
      c.refreshPromise = none →
      getRefreshToken c.storage = some t →
      (refreshAccessTokenRun c .failure).1.storage = emptyStorage ∧
      (refreshAccessTokenRun c .failure).2 = none ∧
      (refreshAccessTokenRun c .failure).1.exchangeCount = c.exchangeCount + 1 ∧
      (refreshAccessTokenRun c .failure).1.refreshPromise = none ∧
      ∀ (st : AuthState) (rr : HttpResult),
        (interceptResponse c st false 401 .failure rr).store = st ∧
        (interceptResponse c st false 401 .failure rr).logoutCalls = 0 ∧
        (interceptResponse c st false 401 .failure rr).callerResult = .err 401 := by
  intro c t hp hr
  have hrun : refreshAccessTokenRun c .failure =
      refreshSettleFailure
        { c with refreshPromise := some c.exchangeCount,
                 exchangeCount := c.exchangeCount + 1 } := by
    simp [refreshAccessTokenRun, refreshCall, hp, hr]
  refine ⟨?_, ?_, ?_, ?_, ?_⟩
  · rw [hrun]; rfl
  · rw [hrun]; rfl
  · rw [hrun]; rfl
  · rw [hrun]; rfl
  · intro st rr
    have hres : (refreshAccessTokenRun c .failure).2 = none := by
      rw [hrun]; rfl
    refine ⟨?_, ?_, ?_⟩
    · simp [interceptResponse, hres]
    · simp [interceptResponse, hres]
    · simp [interceptResponse, hres]

/-- C6 witness: the amended behavior at a concrete client holding a
localStorage pair. -/
theorem C6_refresh_invalid_clears_credentials_witness :
    (refreshAccessTokenRun
      { storage := { cookieAccess := some "ca", cookieRefresh := some "cr",
                     localAccess := some "a0", localRefresh := some "r0" },
        refreshPromise := none, exchangeCount := 0 } .failure).1.storage
      = emptyStorage ∧
    (refreshAccessTokenRun
      { storage := { cookieAccess := some "ca", cookieRefresh := some "cr",
                     localAccess := some "a0", localRefresh := some "r0" },
        refreshPromise := none, exchangeCount := 0 } .failure).2 = none ∧
    (interceptResponse
      { storage := { cookieAccess := some "ca", cookieRefresh := some "cr",
                     localAccess := some "a0", localRefresh := some "r0" },
        refreshPromise := none, exchangeCount := 0 }
      initialAuthState false 401 .failure (.err 401)).store = initialAuthState :=
  ⟨(C6_refresh_invalid_clears_credentials
      { storage := { cookieAccess := some "ca", cookieRefresh := some "cr",
                     localAccess := some "a0", localRefresh := some "r0" },
        refreshPromise := none, exchangeCount := 0 } "cr" rfl rfl).1,
   (C6_refresh_invalid_clears_credentials
      { storage := { cookieAccess := some "ca", cookieRefresh := some "cr",
                     localAccess := some "a0", localRefresh := some "r0" },
        refreshPromise := none, exchangeCount := 0 } "cr" rfl rfl).2.1,
   ((C6_refresh_invalid_clears_credentials
      { storage := { cookieAccess := some "ca", cookieRefresh := some "cr",
                     localAccess := some "a0", localRefresh := some "r0" },
        refreshPromise := none, exchangeCount := 0 } "cr" rfl rfl).2.2.2.2
      initialAuthState (.err 401)).1⟩
